import Mathlib

/-!
Verification development for the To-Do List App repository
(state container `js/state.js`, persistence adapter `js/storage.js`,
validators `js/validators.js`).

The JavaScript modules are shallowly embedded:

* JSON values (what `JSON.parse` produces and `JSON.stringify` consumes)
  are the inductive type `Json`; the LocalStorage slot holds a
  `StoredValue`, which is either a parsed JSON value or a raw string
  that fails to parse (modelling foreign data such as the literal
  string "not json").  String-level serialization is elided: the model
  works at the JSON-value level, which is faithful because
  `JSON.parse(JSON.stringify(v))` is the identity on the JSON values
  our encoder produces.
* The state container state is the typed record `AppState`; the world
  record `World` carries the container state, the storage slot, an
  availability flag (false models `localStorage.setItem` throwing, e.g.
  quota exceeded or security error), and two ghost logs recording the
  snapshots passed to subscribers and the states passed to
  `StorageService.save`.
* `Date.now()` and `Utils.generateUniqueId()` are environment inputs,
  passed as explicit arguments `now` and `newId`.
* JavaScript `String.prototype.trim` is modelled by the structural
  function `jsTrim` and `.length` by the character count; all concrete
  inputs used below are ASCII, where both agree with JavaScript
  exactly.
-/

namespace TodoApp

/-- JSON values, as produced by `JSON.parse`.  Numbers are modelled as
integers: every number the application stores (`createdAt`,
`lastSynced` from `Date.now()`) is an integer. -/
inductive Json where
  | null : Json
  | bool (b : Bool) : Json
  | num (n : Int) : Json
  | str (s : String) : Json
  | arr (elems : List Json) : Json
  | obj (fields : List (String × Json)) : Json

/-- Field lookup on a JSON object, last occurrence wins (as in the
object produced by `JSON.parse`). -/
def lookupField : List (String × Json) → String → Option Json
  | [], _ => none
  | (k2, v) :: rest, k =>
    match lookupField rest k with
    | some r => some r
    | none => if k2 = k then some v else none

/-- Property access `j.k`: `undefined` (`none`) unless `j` is an object
with field `k`. -/
def jGet (j : Json) (k : String) : Option Json :=
  match j with
  | .obj fields => lookupField fields k
  | _ => none

/-- One task of the data model: `{ id, title, completed, createdAt }`. -/
structure Task where
  id : String
  title : String
  completed : Bool
  createdAt : Int
deriving DecidableEq, Repr

/-- The application state held by the state container:
`{ tasks, filter, lastSynced }`. -/
structure AppState where
  tasks : List Task
  filter : String
  lastSynced : Option Int
deriving DecidableEq, Repr

/-- A stored LocalStorage value: either a string that parses as JSON
(kept as its parsed value) or a raw string on which `JSON.parse`
throws. -/
inductive StoredValue where
  | rawNonJson (s : String) : StoredValue
  | jsonVal (j : Json) : StoredValue

namespace StorageService

/-- Models `getDefaultState()` of storage.js, as a JSON value:
`{tasks: [], filter: "all", lastSynced: null}`. -/
def defaultStateJson : Json :=
  .obj [("tasks", .arr []), ("filter", .str "all"), ("lastSynced", .null)]

/-- Models `isValidTask(task)` of storage.js: type-only checks on the four
fields.  A non-object task fails every property access, matching the
JavaScript checks. -/
def isValidTask (task : Json) : Bool :=
  (match jGet task "id" with | some (.str _) => true | _ => false)
  && (match jGet task "title" with | some (.str _) => true | _ => false)
  && (match jGet task "completed" with | some (.bool _) => true | _ => false)
  && (match jGet task "createdAt" with | some (.num _) => true | _ => false)

/-- Models `isValidState(state)` of storage.js: `state.tasks` must be an
array, `state.filter` one of the three recognized strings,
`state.lastSynced` strictly `null` or a number (an absent field is
`undefined`, which the JavaScript check rejects), and every task must
pass `isValidTask`. -/
def isValidState (state : Json) : Bool :=
  (match jGet state "tasks" with
   | some (.arr tasks) => tasks.all isValidTask
   | _ => false)
  && (match jGet state "filter" with
      | some (.str f) => ["all", "active", "completed"].contains f
      | _ => false)
  && (match jGet state "lastSynced" with
      | some .null => true
      | some (.num _) => true
      | _ => false)

/-- Models `load()` of storage.js on the slot contents: absent slot returns the
default state; a raw value on which `JSON.parse` throws is caught and
returns the default state; a parsed value failing `isValidState`
returns the default state; otherwise the parsed value itself. -/
def load (slot : Option StoredValue) : Json :=
  match slot with
  | none => defaultStateJson
  | some (.rawNonJson _) => defaultStateJson
  | some (.jsonVal j) => if isValidState j then j else defaultStateJson

/-- Models `save(state)` of storage.js: an invalid state is rejected without
writing; when `localStorage.setItem` throws (availability flag false)
the error is handled and `false` returned without writing; otherwise
the serialized state is stored and `true` returned.  Returns the new
slot contents together with the boolean success indicator. -/
def save (available : Bool) (slot : Option StoredValue) (state : Json) :
    Option StoredValue × Bool :=
  if !isValidState state then (slot, false)
  else if !available then (slot, false)
  else (some (.jsonVal state), true)

end StorageService

/-- Whitespace class of the JavaScript `\s` regular-expression class and
of `String.prototype.trim`, restricted to the ASCII range (the only
characters the concrete inputs below use). -/
def jsWhitespace (c : Char) : Bool :=
  c = ' ' || c = '\t' || c = '\n' || c = '\r' || c = '\x0b' || c = '\x0c'

/-- Models JavaScript `String.prototype.trim`: drops leading and
trailing whitespace. -/
def jsTrim (s : String) : String :=
  ⟨((s.toList.dropWhile jsWhitespace).reverse.dropWhile jsWhitespace).reverse⟩

/-- Character count of a string (JavaScript `.length`; identical to the
UTF-16 length on the ASCII inputs used below). -/
def jsLength (s : String) : Nat :=
  s.toList.length

namespace Validators

/-- Result record returned by `validateTaskTitle`. -/
structure ValidationResult where
  isValid : Bool
  message : String
deriving DecidableEq, Repr

/-- Models `validateTaskTitle(title)` of validators.js, for string arguments
(the `undefined`/`null`/non-string branches are unreachable from the
typed call sites modelled here).  Checks, in source order: trimmed
length at least 1, trimmed length at most 100, and the regular
expression `^\s+$` (entirely whitespace, nonempty). -/
def validateTaskTitle (title : String) : ValidationResult :=
  let trimmed := jsTrim title
  if jsLength trimmed < 1 then
    { isValid := false, message := "Task cannot be empty" }
  else if jsLength trimmed > 100 then
    { isValid := false, message := "Task title must be 100 characters or less" }
  else if title ≠ "" && title.toList.all jsWhitespace then
    { isValid := false, message := "Task cannot contain only whitespace" }
  else
    { isValid := true, message := "" }

/-- Models `validateFilter(filter)` of validators.js. -/
def validateFilter (filter : String) : Bool :=
  ["all", "active", "completed"].contains filter

end Validators

/-- Encoding of a task by `JSON.stringify` (field order as constructed
in `addTask` of state.js). -/
def encodeTask (t : Task) : Json :=
  .obj [("id", .str t.id), ("title", .str t.title),
        ("completed", .bool t.completed), ("createdAt", .num t.createdAt)]

/-- Encoding of the application state by `JSON.stringify`. -/
def encodeState (s : AppState) : Json :=
  .obj [("tasks", .arr (s.tasks.map encodeTask)),
        ("filter", .str s.filter),
        ("lastSynced", match s.lastSynced with | none => .null | some n => .num n)]

/-- Typed view of a parsed task object (the bridge from the untyped
JSON value installed by `init` to the typed container state). -/
def decodeTask (j : Json) : Option Task :=
  match jGet j "id", jGet j "title", jGet j "completed", jGet j "createdAt" with
  | some (.str i), some (.str t), some (.bool c), some (.num n) =>
    some { id := i, title := t, completed := c, createdAt := n }
  | _, _, _, _ => none

/-- Typed view of a list of parsed task objects: all must decode. -/
def decodeTasks : List Json → Option (List Task)
  | [] => some []
  | t :: ts =>
    match decodeTask t, decodeTasks ts with
    | some task, some rest => some (task :: rest)
    | _, _ => none

/-- Typed view of a parsed state object.  Succeeds exactly on the
shapes that `StorageService.load` can return. -/
def decodeState (j : Json) : Option AppState :=
  match jGet j "tasks", jGet j "filter", jGet j "lastSynced" with
  | some (.arr ts), some (.str f), some ls =>
    match decodeTasks ts,
          (match ls with
           | .null => some none
           | .num n => some (some n)
           | _ => none) with
    | some tasks, some lastSynced =>
      some { tasks := tasks, filter := f, lastSynced := lastSynced }
    | _, _ => none
  | _, _, _ => none

namespace State

/-- The world the state container acts on: its private `state`, the
LocalStorage slot, the availability of the store, and two ghost logs:
the snapshots handed to subscribers by `notifySubscribers`, and the
states passed to `StorageService.save` by `persistState`. -/
structure World where
  state : AppState
  slot : Option StoredValue
  storeAvailable : Bool
  notified : List AppState
  saveCalls : List AppState

/-- Models `getDefaultState()` of state.js (identical to the storage one). -/
def getDefaultState : AppState :=
  { tasks := [], filter := "all", lastSynced := none }

/-- Models `getState()` of state.js at the value level: the current state (the
reference-level sharing of the shallow copy is modelled separately by
`RefModel`). -/
def getState (w : World) : AppState := w.state

/-- Models `notifySubscribers()` of state.js: every subscriber receives the
`getState()` snapshot; the ghost log records it. -/
def notifySubscribers (w : World) : World :=
  { w with notified := w.notified ++ [getState w] }

/-- Models `persistState()` of state.js: calls `StorageService.save(state)`
(recorded in the ghost log) and ignores the success flag apart from a
console warning. -/
def persistState (w : World) : World :=
  let result := StorageService.save w.storeAvailable w.slot (encodeState w.state)
  { w with slot := result.1, saveCalls := w.saveCalls ++ [w.state] }

/-- Models `init()` of state.js: installs `StorageService.load()` as the state
and notifies subscribers.  `decodeState` is the typed-model bridge; it
succeeds on everything `load` can return. -/
def init (w : World) : World :=
  let s := (decodeState (StorageService.load w.slot)).getD getDefaultState
  notifySubscribers { w with state := s }

/-- Models `getFilteredTasks()` of state.js, as a function of the tasks and the
filter it destructures from the state. -/
def getFilteredTasks (tasks : List Task) (filter : String) : List Task :=
  match filter with
  | "active" => tasks.filter (fun task => !task.completed)
  | "completed" => tasks.filter (fun task => task.completed)
  | _ => tasks

/-- Models `getActiveTaskCount()` of state.js. -/
def getActiveTaskCount (w : World) : Nat :=
  (w.state.tasks.filter (fun task => !task.completed)).length

/-- Models `setState(newState)` of state.js: installs a shallow copy of the
argument, stamps `lastSynced` with the current time, notifies, and
persists.  No validation is performed. -/
def setState (w : World) (newState : AppState) (now : Int) : World :=
  let w := { w with state := { newState with lastSynced := some now } }
  persistState (notifySubscribers w)

/-- The partial-update argument of `updateState(updates)`: each present
field overwrites the corresponding state field. -/
structure Updates where
  tasks : Option (List Task) := none
  filter : Option String := none
  lastSynced : Option (Option Int) := none

/-- Models `updateState(updates)` of state.js: spreads the updates over the
state, stamps `lastSynced` with the current time, notifies, and
persists.  No validation is performed. -/
def updateState (w : World) (u : Updates) (now : Int) : World :=
  let merged : AppState :=
    { tasks := u.tasks.getD w.state.tasks,
      filter := u.filter.getD w.state.filter,
      lastSynced := u.lastSynced.getD w.state.lastSynced }
  let w := { w with state := { merged with lastSynced := some now } }
  persistState (notifySubscribers w)

/-- Models `addTask(title)` of state.js.  `newId` is the value returned by
`Utils.generateUniqueId()` and `now` the value of `Date.now()`.  On
invalid title the error is thrown before any state change; on success
the new task is appended, `lastSynced` stamped, subscribers notified,
and the state persisted. -/
def addTask (w : World) (title : String) (newId : String) (now : Int) :
    World × Except String Task :=
  let validation := Validators.validateTaskTitle title
  if !validation.isValid then
    (w, .error validation.message)
  else
    let newTask : Task :=
      { id := newId, title := jsTrim title, completed := false, createdAt := now }
    let w := { w with state :=
      { w.state with tasks := w.state.tasks ++ [newTask], lastSynced := some now } }
    (persistState (notifySubscribers w), .ok newTask)

/-- Models `toggleTaskCompleted(taskId)` of state.js: not-found throws before
any change; otherwise the task at the found index is replaced with its
`completed` flag flipped, `lastSynced` stamped, subscribers notified,
state persisted, and the new flag returned. -/
def toggleTaskCompleted (w : World) (taskId : String) (now : Int) :
    World × Except String Bool :=
  match w.state.tasks.findIdx? (fun task => task.id = taskId) with
  | none => (w, .error "Task not found")
  | some taskIndex =>
    let oldTask := w.state.tasks.getD taskIndex
      { id := "", title := "", completed := false, createdAt := 0 }
    let updatedTask := { oldTask with completed := !oldTask.completed }
    let w := { w with state :=
      { w.state with tasks := w.state.tasks.set taskIndex updatedTask,
                     lastSynced := some now } }
    (persistState (notifySubscribers w), .ok updatedTask.completed)

/-- Models `deleteTask(taskId)` of state.js: not-found throws before any
change; otherwise the task is removed by filtering its id out,
`lastSynced` stamped, subscribers notified, state persisted. -/
def deleteTask (w : World) (taskId : String) (now : Int) :
    World × Except String Unit :=
  if (w.state.tasks.findIdx? (fun task => task.id = taskId)).isNone then
    (w, .error "Task not found")
  else
    let w := { w with state :=
      { w.state with tasks := w.state.tasks.filter (fun task => task.id ≠ taskId),
                     lastSynced := some now } }
    (persistState (notifySubscribers w), .ok ())

/-- Models `setFilter(filter)` of state.js: invalid filter throws; otherwise
the filter is replaced and subscribers notified.  The source calls
neither `persistState` nor touches `lastSynced` here. -/
def setFilter (w : World) (filter : String) : World × Except String Unit :=
  if !Validators.validateFilter filter then
    (w, .error "Invalid filter value")
  else
    let w := { w with state := { w.state with filter := filter } }
    (notifySubscribers w, .ok ())

end State

namespace RefModel

/-!
Reference-level model of the aliasing behaviour of the read operations.
JavaScript arrays are heap objects; `getState` returns
`Object.freeze({ ...state })`, a new frozen top-level object whose
`tasks` field is the same array object as the internal state, and
`getFilteredTasks` returns, under the default `all` branch, the
internal array itself (the other branches allocate a fresh array with
`Array.prototype.filter`).  The heap holds the array objects; an array
is named by its index in the heap.
-/

/-- The heap of array objects. -/
structure Store where
  arrays : List (List Task)

/-- The container state at reference level: `tasks` is a reference to
an array object. -/
structure ContainerState where
  tasksRef : Nat
  filter : String
  lastSynced : Option Int

/-- The value returned by `getState()`: a fresh top-level object,
frozen (so its own fields cannot be reassigned), whose `tasks` field
aliases the internal array. -/
structure Snapshot where
  tasksRef : Nat
  filter : String
  lastSynced : Option Int
  frozen : Bool

/-- Models `getState()` of state.js at reference level: `Object.freeze({ ...state })`
copies the field values — including the array reference — into a new
frozen object. -/
def getStateRef (s : ContainerState) : Snapshot :=
  { tasksRef := s.tasksRef, filter := s.filter,
    lastSynced := s.lastSynced, frozen := true }

/-- Models `getFilteredTasks()` of state.js at reference level: the `active`
and `completed` branches allocate a fresh array holding the filtered
tasks; the default branch returns the internal array reference itself.
Returns the (possibly extended) heap and the reference to the returned
array. -/
def getFilteredTasksRef (h : Store) (s : ContainerState) : Store × Nat :=
  match s.filter with
  | "active" =>
    (⟨h.arrays ++ [(h.arrays.getD s.tasksRef []).filter (fun task => !task.completed)]⟩,
     h.arrays.length)
  | "completed" =>
    (⟨h.arrays ++ [(h.arrays.getD s.tasksRef []).filter (fun task => task.completed)]⟩,
     h.arrays.length)
  | _ => (h, s.tasksRef)

/-- External code calling `push` on an array object it was handed.  The
internal tasks array is never frozen, so the push succeeds and mutates
the heap object in place. -/
def arrayPush (h : Store) (r : Nat) (t : Task) : Store :=
  ⟨h.arrays.set r ((h.arrays.getD r []) ++ [t])⟩

/-- The task list the container observes through its `tasksRef`. -/
def observedTasks (h : Store) (s : ContainerState) : List Task :=
  h.arrays.getD s.tasksRef []

end RefModel

/-- Modelled from the spec (for comparison with the source-derived
`StorageService.isValidTask`): a task element satisfies the Task
invariants — title non-empty and not whitespace-only with at most 100
characters after trimming, `createdAt` a positive integer, `id` a
non-empty string. -/
def specValidTask (t : Json) : Bool :=
  match jGet t "id", jGet t "title", jGet t "completed", jGet t "createdAt" with
  | some (.str i), some (.str ti), some (.bool _), some (.num n) =>
    i ≠ "" && jsTrim ti ≠ "" && jsLength (jsTrim ti) ≤ 100 && decide (0 < n)
  | _, _, _, _ => false

/-- Modelled from the spec (for comparison with the source-derived
`StorageService.isValidState`): tasks a sequence of elements satisfying
the Task invariants, filter one of all/active/completed, and
`lastSynced` either absent/null or a positive integer. -/
def specValidState (j : Json) : Bool :=
  (match jGet j "tasks" with
   | some (.arr ts) => ts.all specValidTask
   | _ => false)
  && (match jGet j "filter" with
      | some (.str f) => ["all", "active", "completed"].contains f
      | _ => false)
  && (match jGet j "lastSynced" with
      | none => true
      | some .null => true
      | some (.num n) => decide (0 < n)
      | _ => false)

/-- A task object, as a JSON value, with the given id and fixed
remaining fields; used in concrete inputs below. -/
def taskJson (i : String) : Json :=
  .obj [("id", .str i), ("title", .str "t"),
        ("completed", .bool false), ("createdAt", .num 1)]

/-- A persisted payload whose two tasks share the id `a`; every field
is well typed, so it passes the structural validation. -/
def dupIdPayload : Json :=
  .obj [("tasks", .arr [taskJson "a", taskJson "a"]),
        ("filter", .str "all"), ("lastSynced", .null)]

/-- A candidate state whose single task has an empty id, a
whitespace-only title, and `createdAt` zero — violating every Task
invariant of the spec while keeping all fields well typed. -/
def typeOnlyPayload : Json :=
  .obj [("tasks", .arr [.obj [("id", .str ""), ("title", .str "   "),
        ("completed", .bool false), ("createdAt", .num 0)]]),
        ("filter", .str "all"), ("lastSynced", .null)]

/-- A world in the initial configuration: default state, empty slot,
store available, empty ghost logs. -/
def baseWorld : State.World :=
  { state := State.getDefaultState, slot := none,
    storeAvailable := true, notified := [], saveCalls := [] }

/-- A world whose slot holds the persisted default state (a previous
successful save) and whose store is available. -/
def syncedWorld : State.World :=
  { baseWorld with slot := some (.jsonVal StorageService.defaultStateJson) }

/-- A world whose durable store is unavailable: every
`localStorage.setItem` call throws (quota exceeded or security
error), so every save fails. -/
def unavailableStoreWorld : State.World :=
  { baseWorld with storeAvailable := false }

/-- A world whose slot holds the duplicate-id payload. -/
def dupSlotWorld : State.World :=
  { baseWorld with slot := some (.jsonVal dupIdPayload) }

/-- Sample tasks for the reference-level aliasing scenario. -/
def sampleTaskA : Task := { id := "a", title := "A", completed := false, createdAt := 1 }

/-- A second sample task, pushed by external code. -/
def sampleTaskB : Task := { id := "b", title := "B", completed := false, createdAt := 2 }

/-- A one-array heap: the internal tasks array holds `sampleTaskA`. -/
def sampleStore : RefModel.Store := ⟨[[sampleTaskA]]⟩

/-- A container state referencing the single array of `sampleStore`,
with the `all` filter. -/
def sampleContainer : RefModel.ContainerState :=
  { tasksRef := 0, filter := "all", lastSynced := none }

/-- Claim C6: for every state accepted by the structural validation,
`save` returns `true` when the underlying store write succeeds, and a
subsequent `load` returns a state deep-equal to the saved one. -/
theorem c6_save_load_round_trip (slot : Option StoredValue) (j : Json)
    (hvalid : StorageService.isValidState j = true) :
    (StorageService.save true slot j).2 = true ∧
      StorageService.load (StorageService.save true slot j).1 = j := by
  simp [StorageService.save, StorageService.load, hvalid]

/-- Witness for the round-trip theorem at the default state. -/
theorem c6_round_trip_witness :
    (StorageService.save true none StorageService.defaultStateJson).2 = true ∧
      StorageService.load (StorageService.save true none StorageService.defaultStateJson).1 =
        StorageService.defaultStateJson :=
  c6_save_load_round_trip none StorageService.defaultStateJson (by decide)

/-- Claim C7: `load` never raises — whenever the slot is absent, holds
a value that fails to parse as JSON (such as the literal string
"not json"), or parses to a value failing the structural validation,
`load` returns the default empty state
`{tasks: [], filter: "all", lastSynced: null}`. -/
theorem c7_load_failure_paths (slot : Option StoredValue)
    (h : slot = none ∨ (∃ s, slot = some (.rawNonJson s)) ∨
         ∃ j, slot = some (.jsonVal j) ∧ StorageService.isValidState j = false) :
    StorageService.load slot =
      Json.obj [("tasks", .arr []), ("filter", .str "all"), ("lastSynced", .null)] := by
  rcases h with h | ⟨s, h⟩ | ⟨j, h, hj⟩ <;> subst h
  · rfl
  · rfl
  · simp [StorageService.load, StorageService.defaultStateJson, hj]

/-- Witness for the load-failure theorem at the stored literal string
"not json" (Scenario D of the spec). -/
theorem c7_load_witness :
    StorageService.load (some (.rawNonJson "not json")) =
      Json.obj [("tasks", .arr []), ("filter", .str "all"), ("lastSynced", .null)] :=
  c7_load_failure_paths _ (Or.inr (Or.inl ⟨"not json", rfl⟩))

/-- Claim C3, evaluated at the failing input: starting from the default
state (`lastSynced = null`) with the durable store unavailable, so that
every save fails, `addTask("Buy milk")` at time 5 still sets
`lastSynced` to 5 while no durable write ever happened (the slot is
still empty).  The code stamps `lastSynced` before attempting the save
and ignores the failure, contradicting the claim that a failed save
leaves `lastSynced` unchanged. -/
theorem c3_lastSynced_failing_input :
    unavailableStoreWorld.state.lastSynced = none ∧
      (State.addTask unavailableStoreWorld "Buy milk" "task-1" 5).2 =
        .ok { id := "task-1", title := "Buy milk", completed := false, createdAt := 5 } ∧
      (State.addTask unavailableStoreWorld "Buy milk" "task-1" 5).1.slot = none ∧
      (State.addTask unavailableStoreWorld "Buy milk" "task-1" 5).1.state.lastSynced = some 5 := by
  exact ⟨rfl, rfl, rfl, by decide⟩

/-- Claim C10: `setState` and `updateState` install the supplied object
with no validation — after `setState` with filter "bogus" the current
state has a filter outside the recognized set, and after `updateState`
with duplicate-id tasks the current state has duplicate ids; in both
cases observers are notified with the invalid state and a durable save
of it is attempted (the save call is recorded in the ghost log). -/
theorem c10_setState_updateState_unvalidated :
    (Validators.validateFilter "bogus" = false ∧
      (State.setState baseWorld { tasks := [], filter := "bogus", lastSynced := none } 7).state.filter
          = "bogus" ∧
      (State.setState baseWorld { tasks := [], filter := "bogus", lastSynced := none } 7).notified
          = [(State.setState baseWorld { tasks := [], filter := "bogus", lastSynced := none } 7).state] ∧
      (State.setState baseWorld { tasks := [], filter := "bogus", lastSynced := none } 7).saveCalls
          = [(State.setState baseWorld { tasks := [], filter := "bogus", lastSynced := none } 7).state]) ∧
    (¬ ((State.updateState baseWorld
          { tasks := some [sampleTaskA, sampleTaskA], filter := none, lastSynced := none } 7).state.tasks.map
            Task.id).Nodup ∧
      (State.updateState baseWorld
          { tasks := some [sampleTaskA, sampleTaskA], filter := none, lastSynced := none } 7).notified
        = [(State.updateState baseWorld
            { tasks := some [sampleTaskA, sampleTaskA], filter := none, lastSynced := none } 7).state] ∧
      (State.updateState baseWorld
          { tasks := some [sampleTaskA, sampleTaskA], filter := none, lastSynced := none } 7).saveCalls
        = [(State.updateState baseWorld
            { tasks := some [sampleTaskA, sampleTaskA], filter := none, lastSynced := none } 7).state]) := by
  decide

/-- Claim C2, amended: for every valid filter value, `setFilter`
replaces the filter and notifies all observers, but does not ask the
Persistence Adapter to save — the slot, the save-call log, and even
`lastSynced` are left untouched. -/
theorem c2_setFilter_no_persist (w : State.World) (f : String)
    (hf : Validators.validateFilter f = true) :
    (State.setFilter w f).2 = .ok () ∧
      (State.setFilter w f).1.state.filter = f ∧
      (State.setFilter w f).1.state.tasks = w.state.tasks ∧
      (State.setFilter w f).1.state.lastSynced = w.state.lastSynced ∧
      (State.setFilter w f).1.notified = w.notified ++ [(State.setFilter w f).1.state] ∧
      (State.setFilter w f).1.slot = w.slot ∧
      (State.setFilter w f).1.saveCalls = w.saveCalls := by
  simp [State.setFilter, hf, State.notifySubscribers, State.getState]

/-- Witness for the amended `setFilter` theorem: from a world with a
previously persisted slot, `setFilter("completed")` leaves the
save-call log unchanged. -/
theorem c2_setFilter_witness :
    (State.setFilter syncedWorld "completed").1.saveCalls = syncedWorld.saveCalls :=
  (c2_setFilter_no_persist syncedWorld "completed" (by decide)).2.2.2.2.2.2

/-- Counterexample to claim C2 as stated: after `setFilter("active")`
on a world whose slot holds the previously saved default state, the
in-memory filter is "active" but the adapter was never asked to save
(the ghost save-call log is still empty) and the slot still holds the
old payload with filter "all" — there is no notify-then-persist path
here. -/
theorem c2_setFilter_counterexample :
    (State.setFilter syncedWorld "active").1.state.filter = "active" ∧
      (State.setFilter syncedWorld "active").1.saveCalls = [] ∧
      (State.setFilter syncedWorld "active").1.slot =
        some (.jsonVal StorageService.defaultStateJson) := by
  refine ⟨by decide, by decide, rfl⟩

/-- Claim C8: for every title that is empty, whitespace-only, or longer
than 100 characters after trimming, `addTask` signals a validation
error and makes no state change at all. -/
theorem c8_addTask_rejects_invalid_title (w : State.World) (title newId : String) (now : Int)
    (hbad : jsTrim title = "" ∨ 100 < jsLength (jsTrim title)) :
    (State.addTask w title newId now).1 = w ∧
      ∃ msg, (State.addTask w title newId now).2 = .error msg := by
  have hinvalid : (Validators.validateTaskTitle title).isValid = false := by
    unfold Validators.validateTaskTitle
    rcases hbad with h | h
    · rw [h]; rfl
    · rw [if_neg (by omega), if_pos h]
  constructor
  · simp [State.addTask, hinvalid]
  · exact ⟨(Validators.validateTaskTitle title).message, by simp [State.addTask, hinvalid]⟩

/-- Witness for the rejection theorem at the whitespace-only title. -/
theorem c8_addTask_witness :
    (State.addTask baseWorld "   " "task-1" 3).1 = baseWorld ∧
      ∃ msg, (State.addTask baseWorld "   " "task-1" 3).2 = .error msg :=
  c8_addTask_rejects_invalid_title baseWorld "   " "task-1" 3 (Or.inl (by decide))

/-- Claim C9: `getFilteredTasks` returns exactly the subsequence of the
tasks matching the filter, relative order preserved — under "active"
the tasks with `completed = false`, under "completed" those with
`completed = true`, under "all" the full sequence, and the result is a
sublist of the tasks for every filter value. -/
theorem c9_getFilteredTasks_spec (tasks : List Task) :
    State.getFilteredTasks tasks "active" = tasks.filter (fun t => t.completed = false) ∧
      State.getFilteredTasks tasks "completed" = tasks.filter (fun t => t.completed = true) ∧
      State.getFilteredTasks tasks "all" = tasks ∧
      ∀ f, (State.getFilteredTasks tasks f).Sublist tasks := by
  refine ⟨?_, ?_, rfl, ?_⟩
  · show tasks.filter (fun task => !task.completed) = _
    apply List.filter_congr
    intro a _
    cases a.completed <;> rfl
  · show tasks.filter (fun task => task.completed) = _
    apply List.filter_congr
    intro a _
    cases a.completed <;> rfl
  · intro f
    unfold State.getFilteredTasks
    split
    · exact List.filter_sublist tasks
    · exact List.filter_sublist tasks
    · exact List.Sublist.refl tasks

/-- Helper: replacing the task at an index with a task carrying the
same id (as `toggleTaskCompleted` does) leaves the id sequence
unchanged. -/
theorem map_id_set_same (ts : List Task) :
    ∀ (i : Nat) (u d : Task), u.id = (ts.getD i d).id →
      (ts.set i u).map Task.id = ts.map Task.id := by
  induction ts with
  | nil => intro i u d _; rfl
  | cons t ts ih =>
    intro i u d h
    cases i with
    | zero =>
      simp only [List.getD_eq_getElem?_getD, List.getElem?_cons_zero, Option.getD_some] at h
      simp [List.set, h]
    | succ n =>
      simp only [List.getD_eq_getElem?_getD, List.getElem?_cons_succ] at h
      simp only [List.set, List.map_cons]
      rw [ih n u d (by simpa [List.getD_eq_getElem?_getD] using h)]

/-- Helper: the toggle replacement preserves uniqueness of the ids. -/
theorem nodup_ids_set_toggle (ts : List Task) (i : Nat) (d : Task)
    (hnd : (ts.map Task.id).Nodup) :
    ((ts.set i
        { ts.getD i d with completed := !(ts.getD i d).completed }).map Task.id).Nodup := by
  rw [map_id_set_same ts i
    { ts.getD i d with completed := !(ts.getD i d).completed } d rfl]
  exact hnd

/-- Claim C4, amended: every state reached from a state with unique
task ids through the mutating operations keeps the ids unique — the
fresh id handed to `addTask` being new, `toggleTaskCompleted`,
`deleteTask` and `setFilter` preserve uniqueness unconditionally.  The
original claim fails on `init`, because the persistence validation
does not check id uniqueness (see the counterexample). -/
theorem c4_mutators_preserve_unique_ids (w : State.World)
    (h : (w.state.tasks.map Task.id).Nodup) :
    (∀ title newId now, newId ∉ w.state.tasks.map Task.id →
        ((State.addTask w title newId now).1.state.tasks.map Task.id).Nodup) ∧
      (∀ taskId now,
        ((State.toggleTaskCompleted w taskId now).1.state.tasks.map Task.id).Nodup) ∧
      (∀ taskId now,
        ((State.deleteTask w taskId now).1.state.tasks.map Task.id).Nodup) ∧
      (∀ f, ((State.setFilter w f).1.state.tasks.map Task.id).Nodup) := by
  refine ⟨?_, ?_, ?_, ?_⟩
  · intro title newId now hfresh
    by_cases hv : (Validators.validateTaskTitle title).isValid <;>
      simp [State.addTask, State.persistState, State.notifySubscribers, hv]
    · rw [List.nodup_append]
      refine ⟨h, List.nodup_singleton _, ?_⟩
      intro x hx hmem
      simp only [List.mem_singleton] at hmem
      exact hfresh (hmem ▸ hx)
    · exact h
  · intro taskId now
    unfold State.toggleTaskCompleted
    cases hidx : w.state.tasks.findIdx? (fun task => task.id = taskId) with
    | none => exact h
    | some i =>
      simp only [State.persistState, State.notifySubscribers]
      exact nodup_ids_set_toggle w.state.tasks i ⟨"", "", false, 0⟩ h
  · intro taskId now
    by_cases hfound : (w.state.tasks.findIdx? (fun task => task.id = taskId)).isNone <;>
      simp [State.deleteTask, State.persistState, State.notifySubscribers, hfound]
    · exact h
    · exact List.Nodup.sublist ((List.filter_sublist _).map Task.id) h
  · intro f
    by_cases hf : Validators.validateFilter f <;>
      simp [State.setFilter, State.notifySubscribers, hf]
    · exact h
    · exact h

/-- Witness for the amended uniqueness theorem: adding one task with a
fresh id to the default state gives unique ids. -/
theorem c4_unique_ids_witness :
    ((State.addTask baseWorld "A" "task-1" 1).1.state.tasks.map Task.id).Nodup :=
  (c4_mutators_preserve_unique_ids baseWorld (by decide)).1 "A" "task-1" 1 (by decide)

/-- Counterexample to claim C4 as stated: the payload whose two tasks
both carry id "a" passes the structural validation of the Persistence
Adapter, and after `init` from a slot holding it, the installed state
has duplicate ids. -/
theorem c4_unique_ids_counterexample :
    StorageService.isValidState dupIdPayload = true ∧
      ¬ ((State.init dupSlotWorld).state.tasks.map Task.id).Nodup := by
  exact ⟨by decide, by decide⟩

/-- Claim C5, amended: at reference level, `getFilteredTasks` under the
current filter "all" returns the internal tasks array itself (no fresh
array is allocated), `getState` returns a fresh frozen top-level
object whose tasks field aliases the same internal array, and an
external push through that shared array changes the task list the
container observes. -/
theorem c5_aliasing_amended (h : RefModel.Store) (s : RefModel.ContainerState) (t : Task)
    (hall : s.filter = "all") (href : s.tasksRef < h.arrays.length) :
    RefModel.getFilteredTasksRef h s = (h, s.tasksRef) ∧
      (RefModel.getStateRef s).tasksRef = s.tasksRef ∧
      (RefModel.getStateRef s).frozen = true ∧
      RefModel.observedTasks (RefModel.arrayPush h s.tasksRef t) s =
        RefModel.observedTasks h s ++ [t] := by
  refine ⟨?_, rfl, rfl, ?_⟩
  · unfold RefModel.getFilteredTasksRef
    rw [hall]
    exact rfl
  · unfold RefModel.observedTasks RefModel.arrayPush
    simp [List.getD_eq_getElem?_getD, List.getElem?_set_self href]

/-- Witness for the aliasing theorem at the sample heap. -/
theorem c5_aliasing_witness :
    RefModel.observedTasks
        (RefModel.arrayPush sampleStore sampleContainer.tasksRef sampleTaskB)
        sampleContainer =
      RefModel.observedTasks sampleStore sampleContainer ++ [sampleTaskB] :=
  (c5_aliasing_amended sampleStore sampleContainer sampleTaskB rfl (by decide)).2.2.2

/-- Counterexample to claim C5 as stated: `getFilteredTasks` under
filter "all" hands external code the internal array itself (the heap is
unchanged and the returned reference is the internal one), and pushing
a task onto the returned array changes the container's subsequently
observable task list. -/
theorem c5_snapshot_counterexample :
    (RefModel.getFilteredTasksRef sampleStore sampleContainer).1 = sampleStore ∧
      (RefModel.getFilteredTasksRef sampleStore sampleContainer).2 =
        sampleContainer.tasksRef ∧
      RefModel.observedTasks
          (RefModel.arrayPush sampleStore
            (RefModel.getFilteredTasksRef sampleStore sampleContainer).2 sampleTaskB)
          sampleContainer ≠
        RefModel.observedTasks sampleStore sampleContainer := by
  refine ⟨rfl, rfl, by decide⟩

/-- Helper: a task element passes the structural validation of
storage.js exactly when it decodes to a typed `Task` — the validation
checks nothing beyond the types of the four fields. -/
theorem isValidTask_iff_decodeTask (t : Json) :
    StorageService.isValidTask t = true ↔ (decodeTask t).isSome := by
  unfold StorageService.isValidTask decodeTask
  rcases h1 : jGet t "id" with _ | (_ | b1 | n1 | s1 | a1 | o1) <;> simp only [h1] <;>
    first
    | (simp; done)
    | (rcases h2 : jGet t "title" with _ | (_ | b2 | n2 | s2 | a2 | o2) <;> simp only [h2] <;>
        first
        | (simp; done)
        | (rcases h3 : jGet t "completed" with _ | (_ | b3 | n3 | s3 | a3 | o3) <;>
            simp only [h3] <;>
            first
            | (simp; done)
            | (rcases h4 : jGet t "createdAt" with _ | (_ | b4 | n4 | s4 | a4 | o4) <;>
                simp only [h4] <;> simp)))

/-- Helper: a task array passes the element-wise validation exactly
when the whole array decodes. -/
theorem all_isValidTask_iff_decodeTasks (ts : List Json) :
    ts.all StorageService.isValidTask = true ↔
      ∃ tasks, decodeTasks ts = some tasks := by
  induction ts with
  | nil => simpa using ⟨[], rfl⟩
  | cons t ts ih =>
    rw [List.all_cons, Bool.and_eq_true, isValidTask_iff_decodeTask,
      Option.isSome_iff_exists, ih]
    constructor
    · rintro ⟨⟨a, ha⟩, ⟨tasks, htasks⟩⟩
      exact ⟨a :: tasks, by simp [decodeTasks, ha, htasks]⟩
    · rintro ⟨tasks, htasks⟩
      cases hd : decodeTask t with
      | none => simp [decodeTasks, hd] at htasks
      | some a =>
        cases hr : decodeTasks ts with
        | none => simp [decodeTasks, hd, hr] at htasks
        | some rest => exact ⟨⟨a, rfl⟩, ⟨rest, rfl⟩⟩

/-- Claim C1, amended: the structural validation shared by `load` and
`save` accepts a candidate exactly when it decodes to a typed state —
tasks a sequence of elements whose `id` and `title` are any strings
(emptiness, whitespace and length are not checked), `completed` any
boolean, `createdAt` any number (positivity is not checked) — whose
filter is one of all/active/completed, and whose `lastSynced` field is
present and either null or any number (an absent field is rejected,
and positivity is not checked). -/
theorem c1_validation_characterization (j : Json) :
    StorageService.isValidState j = true ↔
      ∃ s, decodeState j = some s ∧
        (s.filter = "all" ∨ s.filter = "active" ∨ s.filter = "completed") := by
  unfold StorageService.isValidState decodeState
  rcases ht : jGet j "tasks" with _ | (_ | bt | nt | st | ts | ot) <;> simp only [ht] <;>
    try (simp; done)
  rcases hf : jGet j "filter" with _ | (_ | bf | nf | f | af | og) <;> simp only [hf] <;>
    try (simp; done)
  rcases hl : jGet j "lastSynced" with _ | (_ | bl | nl | sl | al | ol) <;> simp only [hl] <;>
    try (simp; done)
  all_goals
    cases hd : decodeTasks ts with
    | none =>
      have hfalse : ts.all StorageService.isValidTask = false := by
        cases hall : ts.all StorageService.isValidTask
        · rfl
        · obtain ⟨tasks, htasks⟩ := (all_isValidTask_iff_decodeTasks ts).mp hall
          rw [hd] at htasks
          cases htasks
      simp [hfalse, hd]
    | some tasks =>
      have hall : ts.all StorageService.isValidTask = true :=
        (all_isValidTask_iff_decodeTasks ts).mpr ⟨tasks, hd⟩
      simp [hall, hd]

/-- Witness for the validation characterization at the default state. -/
theorem c1_validation_witness :
    ∃ s, decodeState StorageService.defaultStateJson = some s ∧
      (s.filter = "all" ∨ s.filter = "active" ∨ s.filter = "completed") :=
  (c1_validation_characterization StorageService.defaultStateJson).mp (by decide)

/-- Counterexample to claim C1 as stated: the candidate state whose
single task has an empty id, a whitespace-only title, and `createdAt`
zero is accepted by the structural validation of storage.js, although
it violates the Task invariants the claim requires (so the claimed
"if and only if" fails on its only-if direction). -/
theorem c1_validation_counterexample :
    StorageService.isValidState typeOnlyPayload = true ∧
      specValidState typeOnlyPayload = false := by
  exact ⟨by decide, by decide⟩

end TodoApp
